import Mathlib

/-!
Verification of the orchestration core of the news-scraper daemon
(`scripts/scraper/daemon.py`).

The daemon drives external git/gh commands and an external scraper module.
Those collaborators are modelled by explicit environment records that fix
the outcome of every interaction; each daemon function is translated into a
pure function returning its Python return value together with the resulting
repository/service state and the trace of external commands it issued
(argv lists, exactly as the source passes them to `run_cmd`).  A command run
with `check=True` raises `CalledProcessError` on failure; the translation
follows every `try`/`except` of the source explicitly.  Commands run with
`check=False` never raise, so only their presence in the trace matters.
-/

/-- An external command invocation: the argv list handed to `run_cmd`. -/
abbrev Cmd := List String

/-- The sequence of external command invocations a function issues. -/
abbrev Trace := List Cmd

/-- Immutable configuration derived from environment variables at startup
(daemon.py lines 40-44): main branch, PR branch, fork owner (first component
of `FORK_REPO`), and upstream repository. -/
structure Config where
  mainBranch : String
  prBranch : String
  forkOwner : String
  upstreamRepo : String

/-- Python's substring test (`needle in hay` on `str`), over the underlying
character lists. -/
def containsSub (needle : List Char) : List Char → Bool
  | [] => needle.isEmpty
  | c :: rest => needle.isPrefixOf (c :: rest) || containsSub needle rest

/-- Python's `needle in hay` on strings. -/
def pyIn (needle hay : String) : Bool := containsSub needle.data hay.data

/-- Python's `str.lower()`, character by character (the texts involved are
ASCII). -/
def pyLower (s : String) : String := String.mk (s.data.map Char.toLower)

/-! ## GitSyncWorkflow: `sync_with_upstream` (daemon.py lines 150-186) -/

/-- The `git fetch upstream MAIN_BRANCH` command (line 159). -/
def gitFetchCmd (mb : String) : Cmd := ["git", "fetch", "upstream", mb]

/-- The behind-count query `git rev-list --count HEAD..upstream/MAIN_BRANCH`
(line 162). -/
def gitCountCmd (mb : String) : Cmd :=
  ["git", "rev-list", "--count", "HEAD..upstream/" ++ mb]

/-- The `git stash` command (line 169, `check=False`). -/
def gitStashCmd : Cmd := ["git", "stash"]

/-- The `git checkout MAIN_BRANCH` command (line 172). -/
def gitCheckoutCmd (mb : String) : Cmd := ["git", "checkout", mb]

/-- The `git merge upstream/MAIN_BRANCH --no-edit` command (line 173). -/
def gitMergeCmd (mb : String) : Cmd :=
  ["git", "merge", "upstream/" ++ mb, "--no-edit"]

/-- The `git stash pop` command (line 176, `check=False`). -/
def gitStashPopCmd : Cmd := ["git", "stash", "pop"]

/-- Outcomes of the external git commands `sync_with_upstream` issues.
`behind` is the repository's behind-count (commits reachable from
`upstream/MAIN_BRANCH` but not from `HEAD`); when the rev-list command
succeeds it reports exactly this number.  `fetchOk`, `countOk`,
`checkoutOk`, `mergeOk` say whether the corresponding `check=True` command
succeeds (a failure makes `run_cmd` raise, and the surrounding `except`
turns that into a `False` return).  `git stash` and `git stash pop` run
with `check=False`, so their outcome never influences control flow. -/
structure GitEnv where
  fetchOk : Bool
  countOk : Bool
  behind : Nat
  checkoutOk : Bool
  mergeOk : Bool

/-- Translation of `sync_with_upstream` (daemon.py lines 150-186): fetch
upstream, read the behind-count; when it is positive, stash, checkout the
main branch, merge upstream non-interactively, pop the stash and return
`True`; when it is zero return `False`.  Any raising command aborts the
sequence and the `except` clause returns `False`. -/
def sync_with_upstream (mb : String) (e : GitEnv) : Bool × Trace :=
  if !e.fetchOk then (false, [gitFetchCmd mb])
  else if !e.countOk then (false, [gitFetchCmd mb, gitCountCmd mb])
  else if 0 < e.behind then
    if !e.checkoutOk then
      (false, [gitFetchCmd mb, gitCountCmd mb, gitStashCmd, gitCheckoutCmd mb])
    else if !e.mergeOk then
      (false, [gitFetchCmd mb, gitCountCmd mb, gitStashCmd, gitCheckoutCmd mb,
               gitMergeCmd mb])
    else
      (true, [gitFetchCmd mb, gitCountCmd mb, gitStashCmd, gitCheckoutCmd mb,
              gitMergeCmd mb, gitStashPopCmd])
  else (false, [gitFetchCmd mb, gitCountCmd mb])

/-- Claim C1, counterexample.  The claim states that whenever the
behind-count is positive, `sync_with_upstream` issues the full
fetch/count/stash/checkout/merge/stash-pop sequence and returns `True`.
In the repository state where the merge command fails (for example a
conflicted merge), the behind-count is positive yet the function returns
`False` (the raised error is caught and converted, daemon.py lines
184-186), and no stash-pop is issued. -/
theorem sync_behind_pos_claim_false :
    0 < (⟨true, true, 1, true, false⟩ : GitEnv).behind ∧
    (sync_with_upstream "main" ⟨true, true, 1, true, false⟩).1 = false ∧
    gitStashPopCmd ∉ (sync_with_upstream "main" ⟨true, true, 1, true, false⟩).2 := by
  refine ⟨by decide, rfl, by decide⟩

/-- Claim C1, amended.  When the behind-count is 0, `sync_with_upstream`
returns `False` and issues no stash, checkout or merge command (only the
fetch and, when the fetch succeeded, the count).  When the behind-count is
positive and the fetch, count, checkout and merge commands all succeed, it
issues exactly fetch, count, stash, checkout of the main branch, merge of
upstream main, stash-pop, in that order, and returns `True` (a failure of
any `check=True` command instead aborts the sequence with a `False`
return, daemon.py lines 184-186). -/
theorem sync_with_upstream_spec (mb : String) (e : GitEnv) :
    (e.behind = 0 →
      (sync_with_upstream mb e).1 = false ∧
      ∀ c ∈ (sync_with_upstream mb e).2, c = gitFetchCmd mb ∨ c = gitCountCmd mb) ∧
    (0 < e.behind → e.fetchOk = true → e.countOk = true →
      e.checkoutOk = true → e.mergeOk = true →
      sync_with_upstream mb e =
        (true, [gitFetchCmd mb, gitCountCmd mb, gitStashCmd, gitCheckoutCmd mb,
                gitMergeCmd mb, gitStashPopCmd])) := by
  obtain ⟨f, c, b, k, m⟩ := e
  constructor
  · intro hb
    subst hb
    cases f <;> cases c <;> simp [sync_with_upstream]
  · intro hb hf hc hk hm
    subst hf; subst hc; subst hk; subst hm
    simp [sync_with_upstream, hb, Nat.pos_iff_ne_zero.mp hb]

/-- Witness for `sync_with_upstream_spec` at concrete inputs: behind-count 0
with all commands succeeding, and behind-count 3 with all commands
succeeding. -/
theorem sync_with_upstream_spec_witness :
    ((sync_with_upstream "main" ⟨true, true, 0, true, true⟩).1 = false ∧
      ∀ c ∈ (sync_with_upstream "main" ⟨true, true, 0, true, true⟩).2,
        c = gitFetchCmd "main" ∨ c = gitCountCmd "main") ∧
    sync_with_upstream "main" ⟨true, true, 3, true, true⟩ =
      (true, [gitFetchCmd "main", gitCountCmd "main", gitStashCmd,
              gitCheckoutCmd "main", gitMergeCmd "main", gitStashPopCmd]) :=
  ⟨(sync_with_upstream_spec "main" ⟨true, true, 0, true, true⟩).1 rfl,
   (sync_with_upstream_spec "main" ⟨true, true, 3, true, true⟩).2
     (by decide) rfl rfl rfl rfl⟩

/-! ## ScraperInvoker: `run_scraper` (daemon.py lines 189-230)

The scraper collaborator lives in `scripts/scraper/scraper.py`, outside the
daemon source.  Its four entry points are modelled from the spec's contract
(section 4.3): `load_registry`, `get_all_urls`,
`filter_new_urls(all, registry)` (URLs present in `all` but absent from the
registry), and the scrape step, which mutates the registry as a side
effect and returns nothing.  `ScrEnv` records the registry before the
scrape, the discovered URL set, and the registry after the scrape. -/

/-- Modelled from the spec: the registry returned by the collaborator's
`load_registry`, a mapping containing a `scraped_urls` table; only the set
of its keys matters to the daemon (entry counts). -/
structure Registry where
  scraped_urls : Finset String

/-- Modelled from the spec: `filter_new_urls(all, registry)` returns the
URLs present in `all` but absent from the registry. -/
def filter_new_urls (all : Finset String) (registry : Registry) : Finset String :=
  all \ registry.scraped_urls

/-- Collaborator behaviour for one `run_scraper` call: the registry loaded
before scraping, the URL set reported by `get_all_urls`, and the registry
as reloaded after the scrape step ran. -/
structure ScrEnv where
  registry0 : Registry
  allUrls : Finset String
  registry1 : Registry

/-- Translation of the daemon's `run_scraper` (daemon.py lines 189-230).
The first component is the returned pair `(success_count, fail_count)`
(Python ints); the second records the arguments the scrape step was
invoked with (`none` when it was not invoked).  When the filter yields no
new URLs the function returns `(0, 0)` at once; otherwise it invokes the
scrape step with `dry_run=False, verbose=False`, reloads the registry and
returns the registry-size delta and the remainder. -/
def run_scraper (e : ScrEnv) : (Int × Int) × Option (Bool × Bool) :=
  let registry := e.registry0
  let new_urls := filter_new_urls e.allUrls registry
  if new_urls = ∅ then ((0, 0), none)
  else
    let new_registry := e.registry1
    let scraped_count : Int :=
      (new_registry.scraped_urls.card : Int) - (registry.scraped_urls.card : Int)
    ((scraped_count, (new_urls.card : Int) - scraped_count), some (false, false))

/-- Claim C5.  `run_scraper` returns `(0, 0)` without invoking the scrape
step whenever the filter finds no new URLs; otherwise it invokes the
scrape step with `dry_run=False` and `verbose=False` and returns
`(s, n - s)` where `s` is the increase in the registry's `scraped_urls`
entry count across the scrape and `n` is the number of new URLs. -/
theorem run_scraper_spec (e : ScrEnv) :
    (filter_new_urls e.allUrls e.registry0 = ∅ →
      run_scraper e = ((0, 0), none)) ∧
    (filter_new_urls e.allUrls e.registry0 ≠ ∅ →
      run_scraper e =
        (((e.registry1.scraped_urls.card : Int) - (e.registry0.scraped_urls.card : Int),
          ((filter_new_urls e.allUrls e.registry0).card : Int) -
            ((e.registry1.scraped_urls.card : Int) - (e.registry0.scraped_urls.card : Int))),
         some (false, false))) := by
  constructor
  · intro h
    simp [run_scraper, h]
  · intro h
    simp [run_scraper, h]

/-- Witness for `run_scraper_spec`: an environment with no new URLs, and one
where the filter finds one new URL and the scrape adds it to the
registry. -/
theorem run_scraper_spec_witness :
    run_scraper ⟨⟨{"u1"}⟩, {"u1"}, ⟨{"u1"}⟩⟩ = ((0, 0), none) ∧
    run_scraper ⟨⟨{"u1"}⟩, {"u1", "u2"}, ⟨{"u1", "u2"}⟩⟩ =
      ((1, 0), some (false, false)) := by
  constructor
  · exact (run_scraper_spec ⟨⟨{"u1"}⟩, {"u1"}, ⟨{"u1"}⟩⟩).1 (by decide)
  · have h := (run_scraper_spec ⟨⟨{"u1"}⟩, {"u1", "u2"}, ⟨{"u1", "u2"}⟩⟩).2 (by decide)
    rw [h]
    decide

/-! ## CommitManager: `has_local_changes`, `commit_changes`
(daemon.py lines 233-260) -/

/-- The observable working-tree state the commit manager interacts with:
whether `git status --porcelain` reports uncommitted modifications, and how
many commits have been created. -/
structure TreeSt where
  dirty : Bool
  commits : Nat

/-- Outcomes of the `check=True` commands `commit_changes` issues. -/
structure CommitEnv where
  addOk : Bool
  commitOk : Bool

/-- The `git status --porcelain` query (daemon.py line 235). -/
def gitStatusCmd : Cmd := ["git", "status", "--porcelain"]

/-- The `git add -A` staging command (daemon.py line 248). -/
def gitAddAllCmd : Cmd := ["git", "add", "-A"]

/-- The commit command of `commit_changes` (daemon.py lines 251-254); the
message carries a minute-granularity timestamp, irrelevant here and kept
abstract. -/
def gitCommitScrapeCmd : Cmd :=
  ["git", "commit", "-m", "chore(scraper): auto-scrape <timestamp>"]

/-- Translation of `has_local_changes` (daemon.py lines 233-236): the
status query reports whether the tree is dirty. -/
def has_local_changes (s : TreeSt) : Bool := s.dirty

/-- Translation of `commit_changes` (daemon.py lines 239-260): return
`False` immediately when the tree is clean; otherwise stage everything and
commit.  A failing stage or commit command raises, the `except` clause
returns `False`, and the tree stays dirty; a successful commit leaves a
clean tree and one more commit. -/
def commit_changes (e : CommitEnv) (s : TreeSt) : Bool × TreeSt × Trace :=
  if !has_local_changes s then (false, s, [gitStatusCmd])
  else if !e.addOk then (false, s, [gitStatusCmd, gitAddAllCmd])
  else if !e.commitOk then
    (false, s, [gitStatusCmd, gitAddAllCmd, gitCommitScrapeCmd])
  else
    (true, ⟨false, s.commits + 1⟩, [gitStatusCmd, gitAddAllCmd, gitCommitScrapeCmd])

/-- Claim C7.  `commit_changes` returns `False` and issues nothing but the
status query when the tree has no uncommitted modifications; and a second
call with no intervening working-tree modification creates no commit: the
commit count after running `commit_changes` twice equals the count after
running it once (when the first call committed, the tree is clean for the
second; when it failed, the second call's commands fail the same way). -/
theorem commit_changes_idempotent (e : CommitEnv) (s : TreeSt) :
    (has_local_changes s = false →
      commit_changes e s = (false, s, [gitStatusCmd])) ∧
    (commit_changes e (commit_changes e s).2.1).2.1.commits =
      (commit_changes e s).2.1.commits := by
  obtain ⟨a, c⟩ := e
  obtain ⟨d, n⟩ := s
  constructor
  · intro h
    simp [has_local_changes] at h
    simp [commit_changes, has_local_changes, h]
  · cases d <;> cases a <;> cases c <;>
      simp [commit_changes, has_local_changes]

/-- Witness for `commit_changes_idempotent`: a clean tree with five commits
and all commands succeeding. -/
theorem commit_changes_idempotent_witness :
    commit_changes ⟨true, true⟩ ⟨false, 5⟩ = (false, ⟨false, 5⟩, [gitStatusCmd]) ∧
    (commit_changes ⟨true, true⟩
        (commit_changes ⟨true, true⟩ ⟨false, 5⟩).2.1).2.1.commits =
      (commit_changes ⟨true, true⟩ ⟨false, 5⟩).2.1.commits :=
  ⟨(commit_changes_idempotent ⟨true, true⟩ ⟨false, 5⟩).1 rfl,
   (commit_changes_idempotent ⟨true, true⟩ ⟨false, 5⟩).2⟩

/-! ## CommitManager: `commit_logs` (daemon.py lines 440-455) -/

/-- The newline-joined output of `git diff --cached --name-only`: one staged
path per line, as `run_cmd` returns it in `result.stdout`. -/
def joinLines : List String → String
  | [] => ""
  | [p] => p
  | p :: q :: rest => p ++ "\n" ++ joinLines (q :: rest)

/-- A list is a Boolean prefix of itself followed by anything. -/
theorem isPrefixOf_append_self (l s : List Char) :
    List.isPrefixOf l (l ++ s) = true := by
  induction l with
  | nil => simp
  | cons c t ih => simp [List.isPrefixOf, ih]

/-- A Boolean prefix of the haystack is found by `containsSub`. -/
theorem containsSub_of_isPrefixOf (n h : List Char)
    (hp : List.isPrefixOf n h = true) : containsSub n h = true := by
  cases h with
  | nil =>
    cases n with
    | nil => rfl
    | cons a as => simp at hp
  | cons c rest => simp [containsSub, hp]

/-- Prepending to the haystack preserves a `containsSub` hit. -/
theorem containsSub_append_left (n pre h : List Char)
    (hc : containsSub n h = true) : containsSub n (pre ++ h) = true := by
  induction pre with
  | nil => simpa using hc
  | cons c t ih => simp [containsSub, ih]

/-- A line of the joined diff output is found by the substring test the
source applies to `result.stdout`. -/
theorem pyIn_joinLines_of_mem (x : String) (l : List String) (hx : x ∈ l) :
    pyIn x (joinLines l) = true := by
  induction l with
  | nil => simp at hx
  | cons p rest ih =>
    cases rest with
    | nil =>
      have hxp : x = p := by simpa using hx
      subst hxp
      have h0 : List.isPrefixOf x.data (joinLines [x]).data = true := by
        have h1 := isPrefixOf_append_self x.data []
        simp only [List.append_nil] at h1
        simp [joinLines, h1]
      exact containsSub_of_isPrefixOf _ _ h0
    | cons q rest' =>
      rcases List.mem_cons.mp hx with hxp | hxr
      · subst hxp
        show containsSub x.data (joinLines (x :: q :: rest')).data = true
        have hdata : (joinLines (x :: q :: rest')).data =
            x.data ++ ("\n".data ++ (joinLines (q :: rest')).data) := by
          simp [joinLines, String.data_append, List.append_assoc]
        rw [hdata]
        exact containsSub_of_isPrefixOf _ _ (isPrefixOf_append_self _ _)
      · have hrec : containsSub x.data (joinLines (q :: rest')).data = true :=
          ih hxr
        show containsSub x.data (joinLines (p :: q :: rest')).data = true
        have hdata : (joinLines (p :: q :: rest')).data =
            (p.data ++ "\n".data) ++ (joinLines (q :: rest')).data := by
          simp [joinLines, String.data_append]
        rw [hdata]
        exact containsSub_append_left _ _ _ hrec

/-- Outcomes of the external interactions of `commit_logs`: whether the log
file exists, whether the staging and diff commands succeed, and the staged
paths the diff query reports (one per line of its stdout). -/
structure LogEnv where
  logExists : Bool
  addOk : Bool
  diffOk : Bool
  stagedPaths : List String

/-- The staging command `git add LOG_FILE` (daemon.py line 446); `LOG_FILE`
is the repository's `logs/scraper.log` (resolved under the project root). -/
def gitAddLogCmd : Cmd := ["git", "add", "logs/scraper.log"]

/-- The staged-paths query `git diff --cached --name-only` (line 449). -/
def gitDiffCachedCmd : Cmd := ["git", "diff", "--cached", "--name-only"]

/-- The log commit command with its fixed message (line 451). -/
def gitCommitLogsCmd : Cmd :=
  ["git", "commit", "-m", "chore(logs): update scraper logs"]

/-- Translation of `commit_logs` (daemon.py lines 440-455): return at once
when the log file does not exist; otherwise stage the log path, query the
staged diff, and commit exactly when the string `logs/scraper.log` occurs
in the query's stdout (the source tests `"logs/scraper.log" in
result.stdout`).  Failing commands raise and the `except` clause swallows
the error. -/
def commit_logs (e : LogEnv) : Trace :=
  if !e.logExists then []
  else if !e.addOk then [gitAddLogCmd]
  else if !e.diffOk then [gitAddLogCmd, gitDiffCachedCmd]
  else if pyIn "logs/scraper.log" (joinLines e.stagedPaths) then
    [gitAddLogCmd, gitDiffCachedCmd, gitCommitLogsCmd]
  else [gitAddLogCmd, gitDiffCachedCmd]

/-- Claim C8, counterexample.  The claim states that the commit is issued
if and only if the specific path `logs/scraper.log` appears among the
staged diff paths.  The source instead tests substring containment on the
raw stdout, so a staged path `mylogs/scraper.log` (which merely contains
`logs/scraper.log` as a substring) triggers the commit although the log
path itself is not among the staged paths. -/
theorem commit_logs_substring_claim_false :
    gitCommitLogsCmd ∈ commit_logs ⟨true, true, true, ["mylogs/scraper.log"]⟩ ∧
    "logs/scraper.log" ∉
      (⟨true, true, true, ["mylogs/scraper.log"]⟩ : LogEnv).stagedPaths := by
  constructor
  · decide
  · decide

/-- Claim C8, amended.  When the log file exists, `commit_logs` stages only
the log file path (every staging command it issues names
`logs/scraper.log`), and issues the commit with the fixed message
`chore(logs): update scraper logs` if and only if the staging and diff
commands succeed and the string `logs/scraper.log` occurs as a substring of
the staged-diff stdout; the exact log path being among the staged paths is
sufficient for the commit but not necessary.  When the log file does not
exist no command is issued at all. -/
theorem commit_logs_spec (e : LogEnv) :
    (gitCommitLogsCmd ∈ commit_logs e ↔
      (e.logExists = true ∧ e.addOk = true ∧ e.diffOk = true ∧
        pyIn "logs/scraper.log" (joinLines e.stagedPaths) = true)) ∧
    (∀ p : String, ["git", "add", p] ∈ commit_logs e → p = "logs/scraper.log") ∧
    (e.logExists = false → commit_logs e = []) ∧
    (e.logExists = true → e.addOk = true → e.diffOk = true →
      "logs/scraper.log" ∈ e.stagedPaths → gitCommitLogsCmd ∈ commit_logs e) := by
  obtain ⟨lg, a, d, paths⟩ := e
  refine ⟨?_, ?_, ?_, ?_⟩
  · cases lg <;> cases a <;> cases d <;>
      cases hp : pyIn "logs/scraper.log" (joinLines paths) <;>
      simp [commit_logs, gitCommitLogsCmd, gitAddLogCmd, gitDiffCachedCmd, hp]
  · intro p hp
    cases lg <;> cases a <;> cases d <;>
      cases hpy : pyIn "logs/scraper.log" (joinLines paths) <;>
      simp [commit_logs, hpy, gitAddLogCmd, gitDiffCachedCmd, gitCommitLogsCmd] at hp <;>
      simp_all
  · intro h
    subst h
    simp [commit_logs]
  · intro hl ha hd hmem
    subst hl; subst ha; subst hd
    simp [commit_logs, pyIn_joinLines_of_mem _ _ hmem]

/-- Witness for `commit_logs_spec`: the log file exists, both commands
succeed, and the staged paths are exactly `[logs/scraper.log]`. -/
theorem commit_logs_spec_witness :
    gitCommitLogsCmd ∈ commit_logs ⟨true, true, true, ["logs/scraper.log"]⟩ :=
  (commit_logs_spec ⟨true, true, true, ["logs/scraper.log"]⟩).2.2.2
    rfl rfl rfl (by decide)

/-! ## PRLifecycleManager: the create-PR outcome test
(daemon.py lines 404-413) -/

/-- Translation of the outcome branch of `create_pr` (daemon.py lines
404-413): a zero returncode is success; a failure whose lowercased stderr
contains `already exists` is normalized to success (`True`); any other
failure yields `False`. -/
def create_pr_outcome (returncode : Int) (stderr : String) : Bool :=
  if returncode = 0 then true
  else if pyIn "already exists" (pyLower stderr) then true
  else false

/-- Claim C9, counterexample.  The claim states that a failure whose
diagnostic text contains the substring `already exists` yields `True` and
every other failure yields `False`.  The source lowercases the stderr
before the test, so the failure text `GraphQL: ALREADY EXISTS` — which does
not contain the substring `already exists` — nevertheless yields `True`. -/
theorem create_pr_case_claim_false :
    create_pr_outcome 1 "GraphQL: ALREADY EXISTS" = true ∧
    pyIn "already exists" "GraphQL: ALREADY EXISTS" = false := by
  constructor
  · decide
  · decide

/-- Claim C9, amended.  For every failure outcome of the create-PR command
(nonzero returncode), `create_pr` returns `True` exactly when the
diagnostic text contains the substring `already exists`
case-insensitively (the source tests the lowercased stderr); every other
failure returns `False`. -/
theorem create_pr_already_exists_spec (rc : Int) (stderr : String) (h : rc ≠ 0) :
    create_pr_outcome rc stderr = true ↔
      pyIn "already exists" (pyLower stderr) = true := by
  rw [create_pr_outcome, if_neg h]
  cases hp : pyIn "already exists" (pyLower stderr) <;> simp [hp]

/-- Witness for `create_pr_already_exists_spec` at returncode 1: a
diagnostic that contains `already exists` yields `True`. -/
theorem create_pr_already_exists_spec_witness :
    create_pr_outcome 1 "a pull request for branch already exists" = true :=
  (create_pr_already_exists_spec 1 "a pull request for branch already exists"
    (by decide)).mpr (by decide)

/-! ## PRLifecycleManager: `get_open_pr`, `close_pr`, `push_to_pr_branch`,
`create_pr`, `manage_pr` (daemon.py lines 263-437) -/

/-- Repository-and-service state the PR cycle manipulates: the currently
checked-out branch of the working tree, and the numbers of the open pull
requests on the hosting service whose head is the fork owner's PR
branch. -/
structure RepoSt where
  branch : String
  openPRs : List Nat

/-- The `git stash --include-untracked` command (daemon.py line 316,
`check=False`). -/
def gitStashIncludeCmd : Cmd := ["git", "stash", "--include-untracked"]

/-- The `git branch --list PR_BRANCH` query (line 319, `check=False`). -/
def gitBranchListCmd (pb : String) : Cmd := ["git", "branch", "--list", pb]

/-- The `git reset --hard MAIN_BRANCH` command (line 324). -/
def gitResetHardCmd (mb : String) : Cmd := ["git", "reset", "--hard", mb]

/-- The `git checkout -b PR_BRANCH MAIN_BRANCH` command (line 327). -/
def gitCheckoutNewCmd (pb mb : String) : Cmd := ["git", "checkout", "-b", pb, mb]

/-- The `gh repo sync` helper push (line 330, `check=False`). -/
def ghRepoSyncCmd (pb : String) : Cmd :=
  ["gh", "repo", "sync", "--source", "." ++ ":" ++ pb, "--force"]

/-- The forced fallback push `git push origin PR_BRANCH --force`
(line 332). -/
def gitPushPrCmd (pb : String) : Cmd := ["git", "push", "origin", pb, "--force"]

/-- Outcomes of the external commands `push_to_pr_branch` issues.
`prBranchListed` says whether `git branch --list PR_BRANCH` prints the
branch; the `Ok` fields say whether the corresponding `check=True` command
succeeds.  The stash, `gh repo sync` and stash-pop commands run with
`check=False` and cannot alter control flow.  Checking out the main branch
appears twice in the source (line 335 and the recovery at line 346); both
run the same command against the same tree, so one outcome governs both. -/
structure PushEnv where
  prBranchListed : Bool
  checkoutPrOk : Bool
  resetOk : Bool
  checkoutNewOk : Bool
  pushOk : Bool
  checkoutMainOk : Bool

/-- The `except` clause of `push_to_pr_branch` (daemon.py lines 343-348):
best-effort checkout of the main branch and stash pop (both `check=False`,
failures ignored), then return `False`.  `b` is the branch checked out
when the exception was raised. -/
def pushRecover (mb : String) (e : PushEnv) (b : String) (t : Trace) :
    Bool × String × Trace :=
  (false, if e.checkoutMainOk then mb else b,
   t ++ [gitCheckoutCmd mb, gitStashPopCmd])

/-- The tail of `push_to_pr_branch` from the force-push on (daemon.py lines
330-341); on entry the PR branch is checked out. -/
def pushRest (mb pb : String) (e : PushEnv) (t : Trace) : Bool × String × Trace :=
  if !e.pushOk then
    pushRecover mb e pb (t ++ [ghRepoSyncCmd pb, gitPushPrCmd pb])
  else if !e.checkoutMainOk then
    pushRecover mb e pb (t ++ [ghRepoSyncCmd pb, gitPushPrCmd pb, gitCheckoutCmd mb])
  else
    (true, mb,
     t ++ [ghRepoSyncCmd pb, gitPushPrCmd pb, gitCheckoutCmd mb, gitStashPopCmd])

/-- Translation of `push_to_pr_branch` (daemon.py lines 310-348): stash
(untracked included), query the branch list; when the PR branch exists,
check it out and hard-reset it to main, otherwise create it fresh from
main; sync or force-push it to the fork; check main out again; pop the
stash; return `True`.  Any raising command diverts to the `except` clause
(`pushRecover`), which makes a best-effort return to main, restores the
stash, and returns `False`.  `b0` is the branch checked out on entry. -/
def push_to_pr_branch (mb pb b0 : String) (e : PushEnv) : Bool × String × Trace :=
  if e.prBranchListed then
    if !e.checkoutPrOk then
      pushRecover mb e b0 [gitStashIncludeCmd, gitBranchListCmd pb, gitCheckoutCmd pb]
    else if !e.resetOk then
      pushRecover mb e pb
        [gitStashIncludeCmd, gitBranchListCmd pb, gitCheckoutCmd pb, gitResetHardCmd mb]
    else
      pushRest mb pb e
        [gitStashIncludeCmd, gitBranchListCmd pb, gitCheckoutCmd pb, gitResetHardCmd mb]
  else
    if !e.checkoutNewOk then
      pushRecover mb e b0 [gitStashIncludeCmd, gitBranchListCmd pb, gitCheckoutNewCmd pb mb]
    else
      pushRest mb pb e [gitStashIncludeCmd, gitBranchListCmd pb, gitCheckoutNewCmd pb mb]

/-- A subdirectory of `content/news` as seen by the archive walk of
`create_pr` (daemon.py lines 356-362): whether the entry is a directory,
and, when it has an `archive` subdirectory, that directory's entry
count. -/
structure SourceDir where
  isDir : Bool
  archive : Option Nat

/-- The archive count computed by `create_pr` (daemon.py lines 357-362):
the sum over every source directory having an `archive` subdirectory of
that subdirectory's entry count. -/
def archiveCount (dirs : List SourceDir) : Nat :=
  dirs.foldl
    (fun acc d =>
      if d.isDir then
        match d.archive with
        | some k => acc + k
        | none => acc
      else acc)
    0

/-- The `gh pr list` query of `get_open_pr` (daemon.py lines 268-285). -/
def ghPrListCmd (cfg : Config) : Cmd :=
  ["gh", "pr", "list", "--repo", cfg.upstreamRepo, "--head",
   cfg.forkOwner ++ ":" ++ cfg.prBranch, "--state", "open", "--json",
   "number,url", "--limit", "1"]

/-- The `gh pr close` command of `close_pr` (daemon.py line 301). -/
def ghPrCloseCmd (cfg : Config) (n : Nat) : Cmd :=
  ["gh", "pr", "close", toString n, "--repo", cfg.upstreamRepo]

/-- The `gh pr create` command of `create_pr` (daemon.py lines 385-402);
title and body carry a timestamp and the archive count and are kept
abstract. -/
def ghPrCreateCmd (cfg : Config) : Cmd :=
  ["gh", "pr", "create", "--repo", cfg.upstreamRepo, "--head",
   cfg.forkOwner ++ ":" ++ cfg.prBranch, "--base", cfg.mainBranch,
   "--title", "<title>", "--body", "<body>"]

/-- Outcomes of the external interactions of one PR cycle.  `listOk`: the
`gh pr list` query succeeds (a failing or raising query makes
`get_open_pr` return `None`); `closeOk`: the `gh pr close` command
succeeds; `push`: the git command outcomes inside `push_to_pr_branch`;
`newsDir`: the `content/news` directory listing, `none` when the directory
is missing and `iterdir` raises; `createOk`: the `gh pr create` command
succeeds when no open PR with the head exists (the hosting service rejects
a duplicate head with an `already exists` failure); `newPrNumber`: the
number the service assigns to a newly created PR. -/
structure PrCycleEnv where
  listOk : Bool
  closeOk : Bool
  push : PushEnv
  newsDir : Option (List SourceDir)
  createOk : Bool
  newPrNumber : Nat

/-- Translation of `get_open_pr` (daemon.py lines 263-295): query the
hosting service for open PRs with the configured head, limited to one
result; on a failing query or an exception return `None`. -/
def get_open_pr (cfg : Config) (e : PrCycleEnv) (s : RepoSt) :
    Option Nat × Trace :=
  (if e.listOk then s.openPRs.head? else none, [ghPrListCmd cfg])

/-- Translation of `close_pr` (daemon.py lines 298-307): close the given PR
on the service and return `True`; when the command fails the exception is
caught, the PR stays open, and the function returns `False`. -/
def close_pr (cfg : Config) (e : PrCycleEnv) (n : Nat) (s : RepoSt) :
    Bool × RepoSt × Trace :=
  if e.closeOk then
    (true, { s with openPRs := s.openPRs.filter (fun m => m != n) },
     [ghPrCloseCmd cfg n])
  else (false, s, [ghPrCloseCmd cfg n])

/-- Translation of `create_pr` (daemon.py lines 351-417).  The archive walk
over `content/news` (lines 356-362) runs before the `try` block: when the
directory is missing, `iterdir` raises and the error propagates
(`Except.error`).  Otherwise the create command is issued; the hosting
service rejects the creation with an `already exists` failure when an open
PR with the head exists (normalized to `True` by `create_pr_outcome`),
creates the PR when none exists and the command succeeds, and any other
failure yields `False`. -/
def create_pr (cfg : Config) (e : PrCycleEnv) (s : RepoSt) :
    Except Unit Bool × RepoSt × Trace :=
  match e.newsDir with
  | none => (.error (), s, [])
  | some dirs =>
    let _archive_count := archiveCount dirs
    if s.openPRs.isEmpty then
      if e.createOk then
        (.ok (create_pr_outcome 0 ""),
         { s with openPRs := [e.newPrNumber] }, [ghPrCreateCmd cfg])
      else
        (.ok (create_pr_outcome 1 "could not create pull request"), s,
         [ghPrCreateCmd cfg])
    else
      (.ok (create_pr_outcome 1 "a pull request for branch already exists"), s,
       [ghPrCreateCmd cfg])

/-- Translation of `manage_pr` (daemon.py lines 420-437): look for an open
PR with the configured head and close it when found (the close result is
ignored); push to the PR branch, returning early when the push fails;
finally create the new PR.  The only uncaught exception is the archive
walk's (`create_pr`), which propagates. -/
def manage_pr (cfg : Config) (e : PrCycleEnv) (s : RepoSt) :
    Except Unit Unit × RepoSt × Trace :=
  let found := (get_open_pr cfg e s).1
  let s1 := match found with
    | some n => (close_pr cfg e n s).2.1
    | none => s
  let t1 := match found with
    | some n => (get_open_pr cfg e s).2 ++ (close_pr cfg e n s).2.2
    | none => (get_open_pr cfg e s).2
  let pr := push_to_pr_branch cfg.mainBranch cfg.prBranch s1.branch e.push
  let s2 : RepoSt := { s1 with branch := pr.2.1 }
  if pr.1 then
    let cr := create_pr cfg e s2
    ((match cr.1 with
      | .error u => .error u
      | .ok _b => .ok ()),
     cr.2.1, (t1 ++ pr.2.2) ++ cr.2.2)
  else (.ok (), s2, t1 ++ pr.2.2)

/-- Whenever checking out the main branch succeeds, `push_to_pr_branch`
ends with main checked out, on the success path and on every recovery
path. -/
theorem push_ends_on_main (mb pb b0 : String) (e : PushEnv)
    (h : e.checkoutMainOk = true) :
    (push_to_pr_branch mb pb b0 e).2.1 = mb := by
  obtain ⟨l, cp, r, cn, p, cm⟩ := e
  subst h
  cases l <;> cases cp <;> cases r <;> cases cn <;> cases p <;>
    simp [push_to_pr_branch, pushRest, pushRecover]

/-- `close_pr` never changes the checked-out branch. -/
theorem close_pr_branch (cfg : Config) (e : PrCycleEnv) (n : Nat) (s : RepoSt) :
    (close_pr cfg e n s).2.1.branch = s.branch := by
  cases hc : e.closeOk <;> simp [close_pr, hc]

/-- `create_pr` never changes the checked-out branch. -/
theorem create_pr_branch (cfg : Config) (e : PrCycleEnv) (s : RepoSt) :
    (create_pr cfg e s).2.1.branch = s.branch := by
  rcases hd : e.newsDir with _ | dirs
  · simp [create_pr, hd]
  · simp only [create_pr, hd]
    split
    · split <;> rfl
    · rfl

/-- Claim C2, counterexample.  The claim states that every PR cycle leaves
the main branch checked out.  In the cycle where the force-push succeeds
but checking out the main branch fails (the line-335 checkout raises and
the line-346 recovery checkout fails too, its error ignored by
`check=False`), the working tree is left on the PR branch
`scraper-updates`, not on the configured main branch `main`. -/
theorem pr_cycle_branch_claim_false :
    (manage_pr
        ⟨"main", "scraper-updates", "octocat",
         "Hong-Kong-Emergency-Coordination-Hub/Hong-Kong-Fire-Documentary"⟩
        ⟨true, true, ⟨true, true, true, true, true, false⟩, some [], true, 7⟩
        ⟨"main", []⟩).2.1.branch = "scraper-updates" ∧
    ("scraper-updates" : String) ≠ "main" := by
  constructor
  · rfl
  · decide

/-- Claim C2, amended.  Whenever checking out the main branch succeeds,
every PR cycle — success or failure of `push_to_pr_branch` and of
`create_pr`, including the paths where an exception is raised inside
`push_to_pr_branch` — returns control with the configured main branch
checked out.  (When even the recovery checkout of main fails, a failing
cycle can instead leave the PR branch checked out.) -/
theorem manage_pr_ends_on_main (cfg : Config) (e : PrCycleEnv) (s : RepoSt)
    (h : e.push.checkoutMainOk = true) :
    (manage_pr cfg e s).2.1.branch = cfg.mainBranch := by
  unfold manage_pr
  cases hf : (get_open_pr cfg e s).1 <;>
    simp only [hf] <;>
    split <;>
    simp [create_pr_branch, close_pr_branch, push_ends_on_main _ _ _ _ h]

/-- Witness for `manage_pr_ends_on_main`: a cycle in which an open PR 42 is
found and closed, the push succeeds and the create succeeds, with all
checkouts of main succeeding. -/
theorem manage_pr_ends_on_main_witness :
    (manage_pr
        ⟨"main", "scraper-updates", "octocat",
         "Hong-Kong-Emergency-Coordination-Hub/Hong-Kong-Fire-Documentary"⟩
        ⟨true, true, ⟨true, true, true, true, true, true⟩, some [], true, 7⟩
        ⟨"main", [42]⟩).2.1.branch = "main" :=
  manage_pr_ends_on_main
    ⟨"main", "scraper-updates", "octocat",
     "Hong-Kong-Emergency-Coordination-Hub/Hong-Kong-Fire-Documentary"⟩
    ⟨true, true, ⟨true, true, true, true, true, true⟩, some [], true, 7⟩
    ⟨"main", [42]⟩ rfl

/-- `close_pr` never increases the number of open PRs with the configured
head. -/
theorem close_pr_openPRs_le (cfg : Config) (e : PrCycleEnv) (n : Nat)
    (s : RepoSt) (h : s.openPRs.length ≤ 1) :
    (close_pr cfg e n s).2.1.openPRs.length ≤ 1 := by
  cases hc : e.closeOk
  · simpa [close_pr, hc] using h
  · simp only [close_pr, hc, if_true]
    exact le_trans (List.length_filter_le _ _) h

/-- `create_pr` keeps the number of open PRs with the configured head at
most one: the service creates only when none exists and rejects a
duplicate head. -/
theorem create_pr_openPRs_le (cfg : Config) (e : PrCycleEnv) (s : RepoSt)
    (h : s.openPRs.length ≤ 1) :
    (create_pr cfg e s).2.1.openPRs.length ≤ 1 := by
  rcases hd : e.newsDir with _ | dirs
  · simpa [create_pr, hd] using h
  · simp only [create_pr, hd]
    split
    · split
      · simp
      · simpa using h
    · simpa using h

/-- Claim C3.  When at most one open PR with the configured head exists
before the cycle — the hosting service itself never lets a second one
appear, as creation with an existing open head fails with `already
exists` — then after `manage_pr` completes at most one open PR with that
head exists, on every path: close may or may not succeed, push may fail,
creation may fail or be rejected. -/
theorem manage_pr_at_most_one_open (cfg : Config) (e : PrCycleEnv) (s : RepoSt)
    (h : s.openPRs.length ≤ 1) :
    (manage_pr cfg e s).2.1.openPRs.length ≤ 1 := by
  unfold manage_pr
  cases hf : (get_open_pr cfg e s).1 <;>
    simp only [hf] <;>
    split <;>
    first
      | exact create_pr_openPRs_le _ _ _ (by simpa using h)
      | simpa using h
      | exact create_pr_openPRs_le _ _ _
          (by simpa using close_pr_openPRs_le cfg e _ s h)
      | simpa using close_pr_openPRs_le cfg e _ s h

/-- Witness for `manage_pr_at_most_one_open`: one open PR 42 exists, the
close fails, the push succeeds and the create is rejected with `already
exists`. -/
theorem manage_pr_at_most_one_open_witness :
    (manage_pr
        ⟨"main", "scraper-updates", "octocat",
         "Hong-Kong-Emergency-Coordination-Hub/Hong-Kong-Fire-Documentary"⟩
        ⟨true, false, ⟨true, true, true, true, true, true⟩, some [], true, 7⟩
        ⟨"main", [42]⟩).2.1.openPRs.length ≤ 1 :=
  manage_pr_at_most_one_open
    ⟨"main", "scraper-updates", "octocat",
     "Hong-Kong-Emergency-Coordination-Hub/Hong-Kong-Fire-Documentary"⟩
    ⟨true, false, ⟨true, true, true, true, true, true⟩, some [], true, 7⟩
    ⟨"main", [42]⟩ (by decide)

/-- Claim C6, counterexample.  The claim states that no failure inside the
PR cycle raises out of `manage_pr`, including when the archive content
directory is absent.  Yet the archive walk of `create_pr` (daemon.py lines
356-362) runs outside the `try` block: when `content/news` is missing,
`iterdir` raises and the error propagates out of `manage_pr` (here the
push succeeded, so `create_pr` is reached). -/
theorem manage_pr_raises_when_news_dir_missing :
    (manage_pr
        ⟨"main", "scraper-updates", "octocat",
         "Hong-Kong-Emergency-Coordination-Hub/Hong-Kong-Fire-Documentary"⟩
        ⟨true, true, ⟨true, true, true, true, true, true⟩, none, true, 7⟩
        ⟨"main", []⟩).1 = .error () := rfl

/-- Claim C6, amended.  Whenever the archive walk over `content/news`
succeeds (the directory exists), no failure inside the PR cycle — in
`get_open_pr`, `close_pr`, `push_to_pr_branch` or the create command of
`create_pr` — raises out of `manage_pr`: every such failure is logged and
the cycle ends normally.  Only a failing archive walk (a missing
`content/news` directory) escapes. -/
theorem manage_pr_no_raise (cfg : Config) (e : PrCycleEnv) (s : RepoSt)
    (h : e.newsDir.isSome = true) :
    (manage_pr cfg e s).1 = .ok () := by
  rcases hd : e.newsDir with _ | dirs
  · rw [hd] at h
    simp at h
  · unfold manage_pr
    cases hf : (get_open_pr cfg e s).1 <;>
      simp only [hf] <;>
      split <;>
      first
        | rfl
        | (simp only [create_pr, hd]
           split_ifs <;> rfl)

/-- Witness for `manage_pr_no_raise`: the archive directory exists, an open
PR 42 is found, the close fails, and the push fails; the cycle still ends
without raising. -/
theorem manage_pr_no_raise_witness :
    (manage_pr
        ⟨"main", "scraper-updates", "octocat",
         "Hong-Kong-Emergency-Coordination-Hub/Hong-Kong-Fire-Documentary"⟩
        ⟨true, false, ⟨true, true, true, true, false, true⟩, some [], true, 7⟩
        ⟨"main", [42]⟩).1 = .ok () :=
  manage_pr_no_raise
    ⟨"main", "scraper-updates", "octocat",
     "Hong-Kong-Emergency-Coordination-Hub/Hong-Kong-Fire-Documentary"⟩
    ⟨true, false, ⟨true, true, true, true, false, true⟩, some [], true, 7⟩
    ⟨"main", [42]⟩ rfl

/-- `push_to_pr_branch` always issues its initial stash command, on every
path. -/
theorem push_trace_stash (mb pb b0 : String) (e : PushEnv) :
    gitStashIncludeCmd ∈ (push_to_pr_branch mb pb b0 e).2.2 := by
  obtain ⟨l, cp, r, cn, p, cm⟩ := e
  cases l <;> cases cp <;> cases r <;> cases cn <;> cases p <;> cases cm <;>
    simp [push_to_pr_branch, pushRest, pushRecover]

/-- Claim C10.  When an existing open PR is found but closing it fails
(`close_pr` returns `False`), `manage_pr` still proceeds to
`push_to_pr_branch` (its initial stash command is issued) and, when the
push succeeds, to `create_pr` (the create command is issued): a failed
close never aborts the rest of the PR cycle.  The archive-walk hypothesis
only guarantees `create_pr` reaches its command. -/
theorem manage_pr_proceeds_after_close_failure (cfg : Config) (e : PrCycleEnv)
    (s : RepoSt) (n : Nat) (rest : List Nat) (hlist : e.listOk = true)
    (hopen : s.openPRs = n :: rest) (hclose : e.closeOk = false)
    (hnews : e.newsDir.isSome = true) :
    gitStashIncludeCmd ∈ (manage_pr cfg e s).2.2 ∧
    ((push_to_pr_branch cfg.mainBranch cfg.prBranch s.branch e.push).1 = true →
      ghPrCreateCmd cfg ∈ (manage_pr cfg e s).2.2) := by
  rcases hd : e.newsDir with _ | dirs
  · rw [hd] at hnews
    simp at hnews
  · have hf : (get_open_pr cfg e s).1 = some n := by
      simp [get_open_pr, hlist, hopen]
    have hcl : close_pr cfg e n s = (false, s, [ghPrCloseCmd cfg n]) := by
      simp [close_pr, hclose]
    unfold manage_pr
    simp only [hf, hcl]
    constructor
    · split <;> simp [push_trace_stash]
    · intro hp
      simp only [hp, if_true]
      simp only [create_pr, hd]
      split_ifs <;> simp

/-! ## Scheduler: `run_daemon` (daemon.py lines 458-534)

Timestamps are minutes since `datetime.min`, the sentinel both checkpoints
are initialized to (lines 478-479); the sentinel is therefore minute 0,
and any valid wall-clock timestamp handed to a tick lies more than a
million minutes after it. -/

/-- `SYNC_INTERVAL_MINUTES` (daemon.py line 47). -/
def SYNC_INTERVAL_MINUTES : Nat := 10

/-- `PR_INTERVAL_MINUTES` (daemon.py line 48). -/
def PR_INTERVAL_MINUTES : Nat := 60

/-- Scheduler state: the two checkpoints (`last_sync`, `last_pr`) and how
many sync cycles and PR cycles have executed. -/
structure SchedSt where
  lastSync : Nat
  lastPr : Nat
  syncCycles : Nat
  prCycles : Nat

/-- One tick of the daemon loop body (daemon.py lines 483-521): run the
sync cycle when at least the sync interval elapsed since `last_sync`, then
run the PR cycle when at least the PR interval elapsed since `last_pr`,
updating each checkpoint to `now` after its cycle. -/
def daemonTick (syncI prI now : Nat) (st : SchedSt) : SchedSt :=
  let st1 :=
    if syncI ≤ now - st.lastSync then
      { st with lastSync := now, syncCycles := st.syncCycles + 1 }
    else st
  if prI ≤ now - st1.lastPr then
    { st1 with lastPr := now, prCycles := st1.prCycles + 1 }
  else st1

/-- The daemon loop (daemon.py lines 482-528) over the successive values
`datetime.now()` takes at each iteration; in run-once mode the loop breaks
after the first iteration. -/
def daemonLoop (runOnce : Bool) (syncI prI : Nat) : List Nat → SchedSt → SchedSt
  | [], st => st
  | now :: rest, st =>
    let st1 := daemonTick syncI prI now st
    if runOnce then st1 else daemonLoop runOnce syncI prI rest st1

/-- Translation of the scheduling part of `run_daemon` (daemon.py lines
458-534): both checkpoints start at `datetime.min` (minute 0, earlier than
any valid timestamp), then the loop runs. -/
def run_daemon (runOnce : Bool) (syncI prI : Nat) (times : List Nat) : SchedSt :=
  daemonLoop runOnce syncI prI times ⟨0, 0, 0, 0⟩

/-- Claim C4.  In run-once mode, exactly one sync cycle and exactly one PR
cycle execute before the process exits, for every configured pair of
intervals not exceeding the first tick's timestamp — and every valid
timestamp exceeds the minute-scale configured intervals (10 and 60) by six
orders of magnitude, the checkpoints being initialized to the
`datetime.min` sentinel.  The remaining tick times `rest` are never
consumed: the loop breaks after the first iteration. -/
theorem run_once_single_cycles (syncI prI now : Nat) (rest : List Nat)
    (hs : syncI ≤ now) (hp : prI ≤ now) :
    (run_daemon true syncI prI (now :: rest)).syncCycles = 1 ∧
    (run_daemon true syncI prI (now :: rest)).prCycles = 1 := by
  simp [run_daemon, daemonLoop, daemonTick, Nat.sub_zero, hs, hp]

/-- Witness for `run_once_single_cycles` at the source's configured
intervals (10 and 60 minutes) and a realistic timestamp. -/
theorem run_once_single_cycles_witness :
    (run_daemon true SYNC_INTERVAL_MINUTES PR_INTERVAL_MINUTES
        [1065000000, 1065000001]).syncCycles = 1 ∧
    (run_daemon true SYNC_INTERVAL_MINUTES PR_INTERVAL_MINUTES
        [1065000000, 1065000001]).prCycles = 1 :=
  run_once_single_cycles SYNC_INTERVAL_MINUTES PR_INTERVAL_MINUTES
    1065000000 [1065000001] (by decide) (by decide)

/-- Witness for `manage_pr_proceeds_after_close_failure`: open PR 42 is
found, the close fails, and every push command succeeds. -/
theorem manage_pr_proceeds_after_close_failure_witness :
    gitStashIncludeCmd ∈
      (manage_pr
        ⟨"main", "scraper-updates", "octocat",
         "Hong-Kong-Emergency-Coordination-Hub/Hong-Kong-Fire-Documentary"⟩
        ⟨true, false, ⟨true, true, true, true, true, true⟩, some [], true, 8⟩
        ⟨"main", [42]⟩).2.2 ∧
    ((push_to_pr_branch "main" "scraper-updates" "main"
        ⟨true, true, true, true, true, true⟩).1 = true →
      ghPrCreateCmd
        ⟨"main", "scraper-updates", "octocat",
         "Hong-Kong-Emergency-Coordination-Hub/Hong-Kong-Fire-Documentary"⟩ ∈
        (manage_pr
          ⟨"main", "scraper-updates", "octocat",
           "Hong-Kong-Emergency-Coordination-Hub/Hong-Kong-Fire-Documentary"⟩
          ⟨true, false, ⟨true, true, true, true, true, true⟩, some [], true, 8⟩
          ⟨"main", [42]⟩).2.2) :=
  manage_pr_proceeds_after_close_failure
    ⟨"main", "scraper-updates", "octocat",
     "Hong-Kong-Emergency-Coordination-Hub/Hong-Kong-Fire-Documentary"⟩
    ⟨true, false, ⟨true, true, true, true, true, true⟩, some [], true, 8⟩
    ⟨"main", [42]⟩ 42 [] rfl rfl rfl rfl
